import Mathlib

/-!
Verification of `src/tools/genpolicy/src/deployment.rs` (kata-containers
policy generator, Deployment workload-resource variant) against its design
specification.

The YAML document tree (`serde_yaml::Value`) is embedded as the inductive
`Value` below, with mappings as ordered association lists (serde_yaml
preserves key order); mapping keys in Kubernetes manifests are strings.
Rendering a tree to text and parsing it back (`serde_yaml::to_string` /
parse) is modelled as the identity on the structured tree, so operations
that return rendered documents here return the tree itself.  Rust panics
(`unwrap` on a missing path during annotation injection) are modelled by
`Option`, with `none` standing for the abort.
-/

set_option autoImplicit false

namespace Genpolicy

/-- A `serde_yaml::Value` document tree.  Mappings are ordered association
lists with string keys. -/
inductive Value where
  | null : Value
  | bool : Bool → Value
  | num : Int → Value
  | str : String → Value
  | seq : List Value → Value
  | map : List (String × Value) → Value

/-- First value bound to `key` in an ordered mapping (`serde_yaml` `get`). -/
def getEntry : List (String × Value) → String → Option Value
  | [], _ => none
  | (k, v) :: rest, key => if k = key then some v else getEntry rest key

/-- Replace the value bound to `key` in place, or append the binding at the
end when the key is absent (`serde_yaml::Mapping::insert`): sibling fields
are never reordered. -/
def setEntry : List (String × Value) → String → Value → List (String × Value)
  | [], key, v => [(key, v)]
  | (k, w) :: rest, key, v =>
    if k = key then (key, v) :: rest else (k, w) :: setEntry rest key v

/-- Remove the first binding of `key` from an ordered mapping. -/
def removeEntry : List (String × Value) → String → List (String × Value)
  | [], _ => []
  | (k, w) :: rest, key =>
    if k = key then rest else (k, w) :: removeEntry rest key

/-- Navigate a document along a path of mapping keys (`serde_yaml` `get`
chained over the components of a dotted path). -/
def getAtPath : Value → List String → Option Value
  | v, [] => some v
  | .map entries, key :: rest =>
    match getEntry entries key with
    | some child => getAtPath child rest
    | none => none
  | _, _ :: _ => none

/-- Rewrite the subtree at a path of mapping keys with `f`; `none` when the
path does not lead through mappings (the Rust code `unwrap`s there) or when
`f` itself reports an invariant violation. -/
def updateAtPath : Value → List String → (Value → Option Value) → Option Value
  | v, [], f => f v
  | .map entries, key :: rest, f =>
    match getEntry entries key with
    | some child =>
      match updateAtPath child rest f with
      | some child2 => some (.map (setEntry entries key child2))
      | none => none
    | none => none
  | _, _ :: _, _ => none

/-- The mapping key under which the generated policy is attached inside the
`annotations` mapping of the target metadata section. -/
def policy_annotation_key : String := "io.katacontainers.config.agent.policy"

/-- The components of the dotted path `"spec.template.metadata"` that
`Deployment::serialize` passes to the document annotator: the pod
template's metadata section, relative to the document root. -/
def deployment_metadata_path : List String := ["spec", "template", "metadata"]

/-- Modelled from the spec: the metadata-level step of the document
annotator (`yaml::add_policy_annotation`, whose source file `yaml.rs` is
not in src/).  Given the metadata mapping reached at the annotation path,
bind the policy key to the policy string inside its `annotations` mapping,
creating that mapping when the manifest declared none; existing sibling
fields keep their order.  Per the spec's error design, asking the annotator
to write where no metadata mapping (or a malformed `annotations` field)
exists is an internal invariant violation (an uncatchable assertion),
modelled as `none`. -/
def injectPolicy (metadata : Value) (policy : String) : Option Value :=
  match metadata with
  | .map entries =>
    match getEntry entries "annotations" with
    | some (.map anns) =>
      some (.map (setEntry entries "annotations"
        (.map (setEntry anns policy_annotation_key (.str policy)))))
    | some _ => none
    | none =>
      some (.map (setEntry entries "annotations"
        (.map [(policy_annotation_key, .str policy)])))
  | _ => none

/-- Modelled from the spec: the document annotator
(`yaml::add_policy_annotation`; `yaml.rs` is not in src/).  Walks the
dotted path down the retained raw document (the Rust code `unwrap`s each
step, so a missing parent is the assertion modelled by `none`) and injects
the policy annotation into the metadata mapping found there, disturbing no
other part of the tree. -/
def add_policy_annotation (doc : Value) (path : List String) (policy : String) :
    Option Value :=
  updateAtPath doc path (fun m => injectPolicy m policy)

/-- Remove the injected policy annotation: drop the policy key from the
`annotations` mapping at the annotation path.  Used to state the
round-trip property ("parsing the output and removing that one field"). -/
def removePolicyAnn (doc : Value) (path : List String) : Option Value :=
  updateAtPath doc path (fun m =>
    match m with
    | .map entries =>
      match getEntry entries "annotations" with
      | some (.map anns) =>
        some (.map (setEntry entries "annotations"
          (.map (removeEntry anns policy_annotation_key))))
      | _ => none
    | _ => none)

/-- The retained raw document is well-formed for annotation injection: the
annotation path leads to a mapping whose `annotations` entry, when
declared, is itself a mapping.  This is the shape every document parsed
into the typed schema has. -/
def annotatable (doc : Value) (path : List String) : Bool :=
  match getAtPath doc path with
  | some (.map entries) =>
    match getEntry entries "annotations" with
    | some (.map _) => true
    | some _ => false
    | none => true
  | _ => false

/-! ## Typed manifest schema

`deployment.rs` references schema types from `obj_meta.rs`, `pod.rs`,
`pod_template.rs`, `policy.rs` and `yaml.rs`, none of which are in src/.
They are modelled from the spec below: the policy-irrelevant ones
(containers, volumes, mounts, storages, the policy context, the label
selector) are opaque carriers, and `ObjectMeta` carries the fields the
spec names (identifying metadata: name, namespace, annotations).
`BTreeMap<String, String>` is modelled as an ordered list of pairs; only
its equality and emptiness are ever used here. -/

/-- Modelled from the spec: one container of the pod template
(`pod::Container`; `pod.rs` is not in src/).  Its internals are out of
scope; an opaque name stands for the whole record. -/
structure Container where
  name : String
  deriving DecidableEq, Repr

/-- Modelled from the spec: one volume declaration of the pod spec
(`pod::Volume`; `pod.rs` is not in src/); opaque carrier. -/
structure Volume where
  name : String
  deriving DecidableEq, Repr

/-- Modelled from the spec: a sandbox mount descriptor
(`policy::KataMount`; `policy.rs` is not in src/); opaque carrier. -/
structure KataMount where
  destination : String
  deriving DecidableEq, Repr

/-- Modelled from the spec: a sandbox storage descriptor
(`policy::SerializedStorage`; `policy.rs` is not in src/); opaque
carrier. -/
structure SerializedStorage where
  driver : String
  deriving DecidableEq, Repr

/-- Modelled from the spec: the policy context (`policy::AgentPolicy`;
`policy.rs` is not in src/); opaque carrier. -/
structure AgentPolicy where
  tag : String
  deriving DecidableEq, Repr

/-- Modelled from the spec: a label selector (`yaml::LabelSelector`;
`yaml.rs` is not in src/); opaque carrier. -/
structure LabelSelector where
  matchLabels : List (String × String)
  deriving DecidableEq, Repr

/-- Modelled from the spec: identifying metadata
(`obj_meta::ObjectMeta`; `obj_meta.rs` is not in src/): optional name,
optional namespace, optional annotations mapping.  An absent optional
field is distinct from an explicitly empty one. -/
structure ObjectMeta where
  name : Option String
  «namespace» : Option String
  annotations : Option (List (String × String))
  deriving DecidableEq, Repr

/-- Modelled from the spec: `namespace()` is delegated to the shared
object-metadata component and must not fail; a manifest that does not
declare a namespace falls back to the cluster default. -/
def ObjectMeta.get_namespace (m : ObjectMeta) : String :=
  m.«namespace».getD "default"

/-- Modelled from the spec: the pod spec inside the pod template
(`pod::PodSpec`; `pod.rs` is not in src/), restricted to the fields
`deployment.rs` reads: the ordered container list, the optional volume
list, and the optional host-network flag. -/
structure PodSpec where
  containers : List Container
  volumes : Option (List Volume)
  hostNetwork : Option Bool
  deriving DecidableEq, Repr

/-- Modelled from the spec: the pod template
(`pod_template::PodTemplateSpec`; `pod_template.rs` is not in src/):
pod-level metadata plus the pod spec. -/
structure PodTemplateSpec where
  metadata : ObjectMeta
  spec : PodSpec
  deriving DecidableEq, Repr

/-- `RollingUpdateDeployment` from deployment.rs: optional surge /
unavailability bounds. -/
structure RollingUpdateDeployment where
  maxSurge : Option Int
  maxUnavailable : Option Int
  deriving DecidableEq, Repr

/-- `DeploymentStrategy` from deployment.rs: optional strategy type and
optional rolling-update parameters. -/
structure DeploymentStrategy where
  type : Option String
  rollingUpdate : Option RollingUpdateDeployment
  deriving DecidableEq, Repr

/-- `DeploymentSpec` from deployment.rs: optional replica count, optional
label selector, optional update strategy, mandatory pod template. -/
structure DeploymentSpec where
  replicas : Option Int
  selector : Option LabelSelector
  strategy : Option DeploymentStrategy
  template : PodTemplateSpec
  deriving DecidableEq, Repr

/-- `Deployment` from deployment.rs: apiVersion, kind, metadata, spec,
plus the retained raw document (`doc_mapping`, skipped by serde). -/
structure Deployment where
  apiVersion : String
  kind : String
  metadata : ObjectMeta
  spec : DeploymentSpec
  doc_mapping : Value

/-! ## The `yaml::K8sResource` implementation for `Deployment`

Each operation below is the body of the corresponding method of
`impl yaml::K8sResource for Deployment` in deployment.rs.  The shared
helpers `yaml::k8s_resource_init` and
`yaml::get_container_mounts_and_storages` live in `yaml.rs`, which is not
in src/; they are taken as explicit function parameters, so the theorems
hold for every behaviour of those helpers. -/

/-- `Deployment::init`: run the shared pod-spec initialization (the
suspending image-resolution step, abstracted as `k8s_resource_init`) on
the embedded pod template's pod spec, and capture a copy of the raw
document.  The `silent_unsupported_fields` argument is ignored by this
variant (it is `_silent_unsupported_fields` in the Rust code). -/
def Deployment.init (k8s_resource_init : PodSpec → Bool → PodSpec)
    (d : Deployment) (use_cache : Bool) (doc_mapping : Value)
    (silent_unsupported_fields : Bool) : Deployment :=
  let _ := silent_unsupported_fields
  { d with
    spec := { d.spec with
      template := { d.spec.template with
        spec := k8s_resource_init d.spec.template.spec use_cache } }
    doc_mapping := doc_mapping }

/-- `Deployment::get_sandbox_name`: always `None`. -/
def Deployment.get_sandbox_name (d : Deployment) : Option String :=
  let _ := d
  none

/-- `Deployment::get_namespace`: delegate to the object metadata. -/
def Deployment.get_namespace (d : Deployment) : String :=
  d.metadata.get_namespace

/-- `Deployment::get_container_mounts_and_storages`: when the pod spec
declares a volume list, delegate to the shared helper (abstracted as the
`helper` parameter) with the mount/storage accumulators, the container,
the policy context, and that volume list; otherwise leave the
accumulators untouched. -/
def Deployment.get_container_mounts_and_storages
    (helper : List KataMount → List SerializedStorage → Container →
      AgentPolicy → List Volume → List KataMount × List SerializedStorage)
    (d : Deployment) (policy_mounts : List KataMount)
    (storages : List SerializedStorage) (container : Container)
    (agent_policy : AgentPolicy) :
    List KataMount × List SerializedStorage :=
  match d.spec.template.spec.volumes with
  | some volumes => helper policy_mounts storages container agent_policy volumes
  | none => (policy_mounts, storages)

/-- `Deployment::serialize`: inject the policy into the retained raw
document at `"spec.template.metadata"` and render the document (rendering
is the identity on the tree; the in-place update of `doc_mapping` writes
this same tree back). `none` models the `unwrap` panic when the path is
missing. -/
def Deployment.serialize (d : Deployment) (policy : String) : Option Value :=
  add_policy_annotation d.doc_mapping deployment_metadata_path policy

/-- `Deployment::get_containers`: the container list of the embedded pod
template's pod spec. -/
def Deployment.get_containers (d : Deployment) : List Container :=
  d.spec.template.spec.containers

/-- `Deployment::get_annotations`: a copy of the pod template metadata's
annotations when declared, `None` otherwise. -/
def Deployment.get_annotations (d : Deployment) :
    Option (List (String × String)) :=
  match d.spec.template.metadata.annotations with
  | some annotations => some annotations
  | none => none

/-- `Deployment::use_host_network`: the pod spec's host-network flag when
declared, `false` otherwise. -/
def Deployment.use_host_network (d : Deployment) : Bool :=
  match d.spec.template.spec.hostNetwork with
  | some host_network => host_network
  | none => false

/-! ## Concrete sample values

Used to instantiate the theorems below on concrete inputs. -/

/-- A raw Deployment document whose pod template metadata declares an
annotations mapping (with one unrelated annotation) next to a labels
mapping. -/
def docWithAnns : Value :=
  .map [("apiVersion", .str "apps/v1"), ("kind", .str "Deployment"),
    ("spec", .map [("replicas", .num 3),
      ("template", .map [
        ("metadata", .map [
          ("labels", .map [("app", .str "web")]),
          ("annotations", .map [("a", .str "1")])]),
        ("spec", .map [("containers", .seq [.map [("name", .str "app")]])])])])]

/-- A raw Deployment document whose pod template metadata declares no
annotations mapping. -/
def docNoAnns : Value :=
  .map [("spec", .map [("template", .map [("metadata",
    .map [("name", .str "t")])])])]

/-- The document obtained by injecting policy `"p"` into `docNoAnns`: the
annotator had to create the `annotations` mapping. -/
def docNoAnnsInjected : Value :=
  .map [("spec", .map [("template", .map [("metadata",
    .map [("name", .str "t"),
      ("annotations", .map [(policy_annotation_key, .str "p")])])])])]

/-- `docNoAnnsInjected` with the injected policy binding removed again: an
explicitly empty `annotations` mapping remains, so the result is not
structurally equal to `docNoAnns`. -/
def docNoAnnsStripped : Value :=
  .map [("spec", .map [("template", .map [("metadata",
    .map [("name", .str "t"), ("annotations", .map [])])])])]

/-- A concrete typed Deployment (one container, no volumes, no
host-network flag, no pod-template annotations). -/
def sampleDeployment : Deployment where
  apiVersion := "apps/v1"
  kind := "Deployment"
  metadata := { name := some "web", «namespace» := none, annotations := none }
  spec :=
    { replicas := some 3
      selector := none
      strategy := none
      template :=
        { metadata := { name := none, «namespace» := none, annotations := none }
          spec := { containers := [⟨"app"⟩], volumes := none, hostNetwork := none } } }
  doc_mapping := .null

/-! ## Association-list and path lemmas -/

theorem getEntry_setEntry_self (l : List (String × Value)) (key : String)
    (v : Value) : getEntry (setEntry l key v) key = some v := by
  induction l with
  | nil => simp [setEntry, getEntry]
  | cons hd tl ih =>
    obtain ⟨k, w⟩ := hd
    by_cases h : k = key <;> simp [setEntry, getEntry, h, ih]

theorem setEntry_setEntry (l : List (String × Value)) (key : String)
    (v w : Value) : setEntry (setEntry l key v) key w = setEntry l key w := by
  induction l with
  | nil => simp [setEntry]
  | cons hd tl ih =>
    obtain ⟨k, u⟩ := hd
    by_cases h : k = key <;> simp [setEntry, h, ih]

theorem removeEntry_setEntry (l : List (String × Value)) (key : String)
    (v : Value) (h : getEntry l key = none) :
    removeEntry (setEntry l key v) key = l := by
  induction l with
  | nil => simp [setEntry, removeEntry]
  | cons hd tl ih =>
    obtain ⟨k, u⟩ := hd
    by_cases hk : k = key
    · simp [getEntry, hk] at h
    · simp [getEntry, hk] at h
      simp [setEntry, removeEntry, hk, ih h]

theorem setEntry_getEntry_self (l : List (String × Value)) (key : String)
    (v : Value) (h : getEntry l key = some v) : setEntry l key v = l := by
  induction l with
  | nil => simp [getEntry] at h
  | cons hd tl ih =>
    obtain ⟨k, u⟩ := hd
    by_cases hk : k = key
    · simp [getEntry, hk] at h
      simp [setEntry, hk, h]
    · simp [getEntry, hk] at h
      simp [setEntry, hk, ih h]

theorem getAtPath_append (v : Value) (p q : List String) :
    getAtPath v (p ++ q) = (getAtPath v p).bind (fun w => getAtPath w q) := by
  induction p generalizing v with
  | nil => simp [getAtPath]
  | cons key rest ih =>
    cases v with
    | map entries =>
      simp only [List.cons_append, getAtPath]
      cases getEntry entries key with
      | some child => simpa using ih child
      | none => simp
    | null => simp [getAtPath]
    | bool b => simp [getAtPath]
    | num n => simp [getAtPath]
    | str s => simp [getAtPath]
    | seq l => simp [getAtPath]

theorem updateAtPath_isSome (p : List String) (v m : Value)
    (f : Value → Option Value) (h1 : getAtPath v p = some m)
    (h2 : (f m).isSome) : (updateAtPath v p f).isSome := by
  induction p generalizing v with
  | nil =>
    simp [getAtPath] at h1
    simpa [updateAtPath, h1] using h2
  | cons key rest ih =>
    cases v with
    | map entries =>
      simp only [getAtPath] at h1
      cases hg : getEntry entries key with
      | some child =>
        rw [hg] at h1
        have := ih child h1
        simp only [updateAtPath, hg]
        cases hu : updateAtPath child rest f with
        | some c2 => simp
        | none => rw [hu] at this; simp at this
      | none => rw [hg] at h1; simp at h1
    | null => simp [getAtPath] at h1
    | bool b => simp [getAtPath] at h1
    | num n => simp [getAtPath] at h1
    | str s => simp [getAtPath] at h1
    | seq l => simp [getAtPath] at h1

/-- Injecting the policy annotation into a document whose annotation path
leads to a metadata mapping with a declared `annotations` mapping that
does not yet bind the policy key: the injection succeeds, the injected
binding is the only change to the `annotations` mapping (siblings of every
ancestor keep their order and values), and removing that one binding
restores the original document exactly. -/
theorem inject_roundtrip (P : String) (p : List String) (v : Value)
    (es anns : List (String × Value))
    (h1 : getAtPath v p = some (.map es))
    (h2 : getEntry es "annotations" = some (.map anns))
    (h3 : getEntry anns policy_annotation_key = none) :
    ∃ w, updateAtPath v p (fun m => injectPolicy m P) = some w ∧
      getAtPath w p = some (.map (setEntry es "annotations"
        (.map (setEntry anns policy_annotation_key (.str P))))) ∧
      removePolicyAnn w p = some v := by
  induction p generalizing v with
  | nil =>
    simp only [getAtPath, Option.some.injEq] at h1
    subst h1
    refine ⟨.map (setEntry es "annotations"
      (.map (setEntry anns policy_annotation_key (.str P)))), ?_, rfl, ?_⟩
    · simp [updateAtPath, injectPolicy, h2]
    · simp only [removePolicyAnn, updateAtPath, getEntry_setEntry_self]
      rw [removeEntry_setEntry anns policy_annotation_key _ h3,
        setEntry_setEntry, setEntry_getEntry_self es "annotations" _ h2]
  | cons key rest ih =>
    cases v with
    | map entries =>
      simp only [getAtPath] at h1
      cases hg : getEntry entries key with
      | some child =>
        rw [hg] at h1
        obtain ⟨w2, hw1, hw2, hw3⟩ := ih child h1
        refine ⟨.map (setEntry entries key w2), ?_, ?_, ?_⟩
        · simp [updateAtPath, hg, hw1]
        · simp [getAtPath, getEntry_setEntry_self, hw2]
        · simp only [removePolicyAnn] at hw3 ⊢
          simp only [updateAtPath, getEntry_setEntry_self, hw3]
          rw [setEntry_setEntry, setEntry_getEntry_self entries key child hg]
      | none => rw [hg] at h1; simp at h1
    | null => simp [getAtPath] at h1
    | bool b => simp [getAtPath] at h1
    | num n => simp [getAtPath] at h1
    | str s => simp [getAtPath] at h1
    | seq l => simp [getAtPath] at h1

/-! ## Claims -/

/-- C1 (amended): for every initialized Deployment, raw document `D`, and
policy string `P`, provided the annotation path `"spec.template.metadata"`
of `D` leads to a mapping whose `annotations` entry is a declared mapping
not yet binding the policy key, `serialize P` succeeds, the output binds
the policy key to `P` at `spec.template.metadata.annotations`, and
removing that one binding yields a document structurally equal to `D` —
so no other part of `D` is altered. -/
theorem deployment_serialize_frame_roundtrip
    (f : PodSpec → Bool → PodSpec) (d : Deployment) (uc s : Bool)
    (D : Value) (P : String) (es anns : List (String × Value))
    (h1 : getAtPath D deployment_metadata_path = some (.map es))
    (h2 : getEntry es "annotations" = some (.map anns))
    (h3 : getEntry anns policy_annotation_key = none) :
    ∃ w, (Deployment.init f d uc D s).serialize P = some w ∧
      getAtPath w (deployment_metadata_path ++ ["annotations", policy_annotation_key])
        = some (.str P) ∧
      removePolicyAnn w deployment_metadata_path = some D := by
  obtain ⟨w, hw1, hw2, hw3⟩ :=
    inject_roundtrip P deployment_metadata_path D es anns h1 h2 h3
  refine ⟨w, ?_, ?_, hw3⟩
  · simpa [Deployment.serialize, Deployment.init,
      add_policy_annotation] using hw1
  · rw [getAtPath_append, hw2]
    simp [getAtPath, getEntry_setEntry_self]

/-- Witness for C1's theorem at a concrete document and policy. -/
theorem deployment_serialize_frame_roundtrip_witness :
    ∃ w, (Deployment.init (fun ps _ => ps) sampleDeployment true docWithAnns true).serialize
        "policy-text" = some w ∧
      getAtPath w (deployment_metadata_path ++ ["annotations", policy_annotation_key])
        = some (.str "policy-text") ∧
      removePolicyAnn w deployment_metadata_path = some docWithAnns :=
  deployment_serialize_frame_roundtrip (fun ps _ => ps) sampleDeployment true true
    docWithAnns "policy-text"
    [("labels", .map [("app", .str "web")]), ("annotations", .map [("a", .str "1")])]
    [("a", .str "1")] rfl rfl rfl

/-- Counterexample to C1 as stated: on a raw document whose pod template
metadata declares no annotations mapping, the annotator must create that
mapping; removing the one injected policy binding from the output leaves
an explicitly empty `annotations` mapping behind, which is not
structurally equal to the original document. -/
theorem deployment_serialize_roundtrip_cex :
    (Deployment.init (fun ps _ => ps) sampleDeployment true docNoAnns true).serialize "p"
      = some docNoAnnsInjected ∧
    removePolicyAnn docNoAnnsInjected deployment_metadata_path
      = some docNoAnnsStripped ∧
    docNoAnnsStripped ≠ docNoAnns := by
  refine ⟨rfl, rfl, ?_⟩
  simp [docNoAnnsStripped, docNoAnns]

/-- C2 (amended): the interface operations other than `initialize` and
`serialize` are total by construction (their Lean embeddings are plain
functions, mirroring panic-free Rust bodies); `serialize` is the one
operation with a reachable assertion, and it never fails provided the
retained raw document is well-formed for annotation injection (the
annotation path leads to a metadata mapping whose declared `annotations`
entry, if any, is a mapping) — the shape every document that parsed into
the typed schema has. -/
theorem deployment_serialize_total_of_annotatable (d : Deployment) (P : String)
    (h : annotatable d.doc_mapping deployment_metadata_path = true) :
    ((Deployment.serialize d P).isSome : Prop) := by
  unfold annotatable at h
  cases hg : getAtPath d.doc_mapping deployment_metadata_path with
  | none => rw [hg] at h; simp at h
  | some m =>
    rw [hg] at h
    cases m with
    | map es =>
      show (updateAtPath d.doc_mapping deployment_metadata_path
        (fun m => injectPolicy m P)).isSome
      refine updateAtPath_isSome _ _ _ _ hg ?_
      cases ha : getEntry es "annotations" with
      | none => simp [injectPolicy, ha]
      | some a =>
        simp only [ha] at h
        cases a with
        | map anns => simp [injectPolicy, ha]
        | null => simp at h
        | bool b => simp at h
        | num n => simp at h
        | str s => simp at h
        | seq l => simp at h
    | null => simp at h
    | bool b => simp at h
    | num n => simp at h
    | str s => simp at h
    | seq l => simp at h

/-- Witness for C2's theorem at a concrete well-formed document. -/
theorem deployment_serialize_total_witness :
    ((Deployment.serialize
      (Deployment.init (fun ps _ => ps) sampleDeployment false docWithAnns false)
      "p").isSome : Prop) :=
  deployment_serialize_total_of_annotatable _ "p" rfl

/-- Counterexample to C2 as stated: `serialize` is not total on every
Deployment value — on an instance whose retained raw document lacks the
`spec.template.metadata` path (here: a null document), the annotator's
path `unwrap` fires, modelled by the `none` result. -/
theorem deployment_serialize_panic_cex :
    (Deployment.init (fun ps _ => ps) sampleDeployment true .null true).serialize "p"
      = none := rfl

/-- C3: `get_containers` returns exactly the container sequence of the
embedded pod template's pod spec, in source order (the list is returned
as-is, so order, length, and repeated-call stability are immediate). -/
theorem deployment_get_containers_eq (d : Deployment) :
    d.get_containers = d.spec.template.spec.containers := rfl

/-- C4: `get_annotations` reads the pod template's metadata annotations:
it equals that field, and in particular is `none` exactly when the pod
template metadata declares no annotation mapping (a declared empty mapping
yields `some []`, distinct from `none`). -/
theorem deployment_get_annotations_eq (d : Deployment) :
    d.get_annotations = d.spec.template.metadata.annotations ∧
    (d.get_annotations = none ↔ d.spec.template.metadata.annotations = none) := by
  cases h : d.spec.template.metadata.annotations <;>
    simp [Deployment.get_annotations, h]

/-- C5: `use_host_network` returns the pod spec's host-network flag when
declared and `false` when the manifest does not declare the field. -/
theorem deployment_use_host_network_eq (d : Deployment) :
    d.use_host_network = d.spec.template.spec.hostNetwork.getD false := by
  cases h : d.spec.template.spec.hostNetwork <;>
    simp [Deployment.use_host_network, h]

/-- C6: `get_sandbox_name` returns `none` for every Deployment value,
whatever the declared replica count or any other field. -/
theorem deployment_get_sandbox_name_none (d : Deployment) :
    d.get_sandbox_name = none := rfl

/-- C7: `get_container_mounts_and_storages` leaves the mount and storage
accumulators unchanged (and signals no error) when the pod spec declares
no volume list, and otherwise delegates to the shared helper with exactly
the declared volume list, the container, and the policy context. -/
theorem deployment_mounts_storages_delegation
    (helper : List KataMount → List SerializedStorage → Container →
      AgentPolicy → List Volume → List KataMount × List SerializedStorage)
    (d : Deployment) (policy_mounts : List KataMount)
    (storages : List SerializedStorage) (container : Container)
    (agent_policy : AgentPolicy) :
    (d.spec.template.spec.volumes = none →
      d.get_container_mounts_and_storages helper policy_mounts storages
        container agent_policy = (policy_mounts, storages)) ∧
    (∀ volumes, d.spec.template.spec.volumes = some volumes →
      d.get_container_mounts_and_storages helper policy_mounts storages
        container agent_policy
        = helper policy_mounts storages container agent_policy volumes) := by
  constructor
  · intro h
    simp [Deployment.get_container_mounts_and_storages, h]
  · intro volumes h
    simp [Deployment.get_container_mounts_and_storages, h]

/-- Witness for C7's theorem: a concrete volumeless Deployment leaves
concrete accumulators untouched. -/
theorem deployment_mounts_storages_delegation_witness :
    Deployment.get_container_mounts_and_storages (fun pm st _ _ _ => (pm, st))
      sampleDeployment [⟨"/data"⟩] [⟨"blk"⟩] ⟨"app"⟩ ⟨"ctx"⟩
      = ([⟨"/data"⟩], [⟨"blk"⟩]) :=
  (deployment_mounts_storages_delegation (fun pm st _ _ _ => (pm, st))
    sampleDeployment [⟨"/data"⟩] [⟨"blk"⟩] ⟨"app"⟩ ⟨"ctx"⟩).1 rfl

/-- C8: `init` stores the raw document passed to it in the instance, and
the later `serialize` call computes its output from that captured copy
(and the policy string) alone — the annotated document is a function of
the document as passed to `init`, not of the typed schema. -/
theorem deployment_init_captures_doc
    (f : PodSpec → Bool → PodSpec) (d : Deployment) (uc : Bool) (D : Value)
    (s : Bool) (P : String) :
    (Deployment.init f d uc D s).doc_mapping = D ∧
    (Deployment.init f d uc D s).serialize P
      = add_policy_annotation D deployment_metadata_path P :=
  ⟨rfl, rfl⟩

/-- C9: two runs of `init` that differ only in the
`silent_unsupported_fields` argument produce identical states — the flag
has no observable effect on this variant. -/
theorem deployment_init_ignores_silent_flag
    (f : PodSpec → Bool → PodSpec) (d : Deployment) (uc : Bool) (D : Value)
    (s1 s2 : Bool) :
    Deployment.init f d uc D s1 = Deployment.init f d uc D s2 := rfl

/-- C10: `init` mutates only the embedded pod template's pod spec (via the
shared pod-spec initialization) and the retained raw-document field; the
top-level metadata, apiVersion, kind, replica count, selector, update
strategy, and the pod template's metadata are unchanged. -/
theorem deployment_init_frame
    (f : PodSpec → Bool → PodSpec) (d : Deployment) (uc : Bool) (D : Value)
    (s : Bool) :
    (Deployment.init f d uc D s).apiVersion = d.apiVersion ∧
    (Deployment.init f d uc D s).kind = d.kind ∧
    (Deployment.init f d uc D s).metadata = d.metadata ∧
    (Deployment.init f d uc D s).spec.replicas = d.spec.replicas ∧
    (Deployment.init f d uc D s).spec.selector = d.spec.selector ∧
    (Deployment.init f d uc D s).spec.strategy = d.spec.strategy ∧
    (Deployment.init f d uc D s).spec.template.metadata
      = d.spec.template.metadata ∧
    (Deployment.init f d uc D s).spec.template.spec
      = f d.spec.template.spec uc ∧
    (Deployment.init f d uc D s).doc_mapping = D :=
  ⟨rfl, rfl, rfl, rfl, rfl, rfl, rfl, rfl, rfl⟩

end Genpolicy
